import Mathlib

/-!
Verification of the `netsim` core of the rbmk-project/x repository.

This file shallowly embeds the parts of the Go sources needed to settle the
frozen claims: the packet data model (`netsim/packet/packet.go`), the port
lookup cascade, RST synthesis, ephemeral port allocation and dialing of the
network stack (`netsim/stack.go`, both variants present in the sources), the
TCP connection handshake and byte-stream read (`netsim/tcpconn.go` and
`netsim/netstack/tcpconn.go`), the refreshable deadline (`netsim/deadline.go`),
and the router with its filter chain (`netsim/router/router.go`).

Machine integers (uint8 TTL, uint16 ports) are modelled as `Nat`; the code
never overflows them on the paths we verify (TTL is only decremented when
positive; the ephemeral counter is capped at 65535 before incrementing).
Go channels appear as explicit queues (`List Packet`) with a capacity, and
goroutine interleavings are abstracted away: each claim is about the purely
sequential behaviour of one operation, which the embedding makes a function.
Go panics (from `runtimex.Assert`) are modelled with `Except String`.
-/

namespace Netsim

/-- IPProtocol is the protocol number of an IP packet (uint8). -/
abbrev IPProtocol := Nat

/-- IPProtocolTCP is the TCP protocol number (`packet.go`). -/
def IPProtocolTCP : IPProtocol := 6

/-- IPProtocolUDP is the UDP protocol number (`packet.go`). -/
def IPProtocolUDP : IPProtocol := 17

/-- TCPFlags is a set of TCP flags (uint8 bitmask). -/
abbrev TCPFlags := Nat

/-- TCPFlagFIN is the FIN flag (`packet.go`). -/
def TCPFlagFIN : TCPFlags := 1

/-- TCPFlagSYN is the SYN flag (`packet.go`). -/
def TCPFlagSYN : TCPFlags := 2

/-- TCPFlagRST is the RST flag (`packet.go`). -/
def TCPFlagRST : TCPFlags := 4

/-- TCPFlagPSH is the PSH flag (`packet.go`). -/
def TCPFlagPSH : TCPFlags := 8

/-- TCPFlagACK is the ACK flag (`packet.go`). -/
def TCPFlagACK : TCPFlags := 16

/-- Addr models `netip.Addr`: either the invalid zero value, an IPv4
address, or an IPv6 address. Structural equality of `netip.Addr` values
of the same family is equality of the numeric address, and addresses of
different families (or the invalid address) compare unequal, which this
inductive reproduces. -/
inductive Addr where
  | invalid : Addr
  | v4 (a : Nat) : Addr
  | v6 (a : Nat) : Addr
deriving DecidableEq, Repr

/-- IPv4Unspecified models `netip.IPv4Unspecified()` (0.0.0.0). -/
def IPv4Unspecified : Addr := Addr.v4 0

/-- IPv6Unspecified models `netip.IPv6Unspecified()` (::). -/
def IPv6Unspecified : Addr := Addr.v6 0

/-- IsValid models `netip.Addr.IsValid`. -/
def Addr.IsValid : Addr → Bool
  | Addr.invalid => false
  | _ => true

/-- Is4 models `netip.Addr.Is4`. -/
def Addr.Is4 : Addr → Bool
  | Addr.v4 _ => true
  | _ => false

/-- IsUnspecified models `netip.Addr.IsUnspecified`. -/
def Addr.IsUnspecified : Addr → Bool
  | Addr.v4 0 => true
  | Addr.v6 0 => true
  | _ => false

/-- AddrPort models `netip.AddrPort` (an address plus a uint16 port). -/
structure AddrPort where
  addr : Addr
  port : Nat
deriving DecidableEq, Repr

/-- zeroAddrPort is the zero value `netip.AddrPort` used for wildcard
remote addresses. -/
def zeroAddrPort : AddrPort := ⟨Addr.invalid, 0⟩

/-- IsValid models `netip.AddrPort.IsValid`, which reports whether the
address component is valid. -/
def AddrPort.IsValid (ap : AddrPort) : Bool := ap.addr.IsValid

/-- Packet models `packet.Packet` from `netsim/packet/packet.go`.
The payload carries bytes as naturals. -/
structure Packet where
  TTL : Nat
  SrcAddr : Addr
  DstAddr : Addr
  IPProtocol : IPProtocol
  SrcPort : Nat
  DstPort : Nat
  Flags : TCPFlags
  Payload : List Nat
deriving DecidableEq, Repr

/-- Err enumerates the error values used by the embedded code paths:
the netsim errno values, the Go stdlib sentinels (`net.ErrClosed`,
`os.ErrDeadlineExceeded`, `io.EOF`), and the router-internal errors. -/
inductive Err where
  | EADDRINUSE | EADDRNOTAVAIL | ECONNABORTED | ECONNREFUSED | ECONNRESET
  | EHOSTUNREACH | EINVAL | ENETDOWN | ENOTCONN | EPROTONOSUPPORT
  | ErrClosed | ErrDeadlineExceeded | ErrEOF
  | errTTLExceeded | errNoRouteToHost | errBufferFull
deriving DecidableEq, Repr

/-- linuxDefaultTTL is the default TTL used by `Port.WritePacket`. -/
def linuxDefaultTTL : Nat := 64

end Netsim

namespace Router

open Netsim

/-- lookupSrt models the static routing table lookup `r.srt[pkt.DstAddr]`:
the table maps addresses to device identifiers, `none` meaning that the Go
map returns the nil interface. -/
def lookupSrt (srt : List (Addr × Nat)) (a : Addr) : Option Nat :=
  match srt.find? (fun e => e.1 = a) with
  | some e => some e.2
  | none => none

/-- route embeds `Router.route` from `netsim/router/router.go`. The
`full` argument tells, for each device identifier, whether that device's
buffered input channel is full at the moment of the non-blocking send.
On success the result carries the next-hop device and the forwarded
packet (whose TTL the code decremented in place). -/
def route (srt : List (Addr × Nat)) (full : Nat → Bool) (pkt : Packet) :
    Except Err (Nat × Packet) :=
  -- Decrement TTL (uint8, so `pkt.TTL <= 0` means TTL = 0).
  if pkt.TTL ≤ 0 then Except.error Err.errTTLExceeded
  else
    let pkt2 := { pkt with TTL := pkt.TTL - 1 }
    -- Find next hop.
    match lookupSrt srt pkt.DstAddr with
    | none => Except.error Err.errNoRouteToHost
    | some nextHop =>
      -- Forward packet (non-blocking).
      if full nextHop then Except.error Err.errBufferFull
      else Except.ok (nextHop, pkt2)

/-- Target models `packet.Target` (`CONTINUE` iota 0, `DROP` 1). -/
inductive Target where
  | CONTINUE : Target
  | DROP : Target
deriving DecidableEq, Repr

/-- Filter models `packet.Filter`: a pure function from a packet to a
target decision plus a list of packets to inject. -/
abbrev Filter := Packet → Target × List Packet

/-- handleTrace embeds `Router.handle` from `netsim/router/router.go`,
exposing its effect as data: it returns, in order, the packets that
`handle` passes to `r.route` (each injected packet is passed to `route`
directly, never back through the filter chain), together with whether the
original packet reached the final `r.route(pkt)` call (when it did, it is
the last element of the list). Each loop iteration routes the packets the
filter injected and then stops if the filter said `DROP`. -/
def handleTrace : List Filter → Packet → List Packet × Bool
  | [], pkt => ([pkt], true)
  | pf :: rest, pkt =>
    let r := pf pkt
    match r.1 with
    | Target.DROP => (r.2, false)
    | Target.CONTINUE =>
      let tr := handleTrace rest pkt
      (r.2 ++ tr.1, tr.2)

end Router

namespace Stack

open Netsim

/-- PortAddr models `netsim.PortAddr`: the primary key of the stack's
port table (`unnamed/part_018`). -/
structure PortAddr where
  LocalAddr : AddrPort
  Protocol : IPProtocol
  RemoteAddr : AddrPort
deriving DecidableEq, Repr

/-- lookupPort models the Go map access `ns.ports[addr]`: the table is a
finite map from `PortAddr` to ports, where ports are named by identifiers;
a missing key yields `none` (the nil pointer in Go). -/
def lookupPort (ports : List (PortAddr × Nat)) (k : PortAddr) : Option Nat :=
  match ports.find? (fun e => e.1 = k) with
  | some e => some e.2
  | none => none

/-- findPortLoop embeds the `for _, ipAddr := range [...]{IPv4Unspecified, IPv6Unspecified}`
loop of `Stack.findPortLocked` (`netsim/stack.go`): for each unspecified
address, first the five tuple with wildcard local (step 3), then the three
tuple with wildcard local and wildcard remote (step 4). -/
def findPortLoop (ports : List (PortAddr × Nat)) (pkt : Packet) :
    List Addr → Option Nat
  | [] => none
  | ipAddr :: rest =>
    -- 3.
    let addr3 : PortAddr :=
      ⟨⟨ipAddr, pkt.DstPort⟩, pkt.IPProtocol, ⟨pkt.SrcAddr, pkt.SrcPort⟩⟩
    match lookupPort ports addr3 with
    | some port => some port
    | none =>
      -- 4.
      let addr4 : PortAddr := ⟨⟨ipAddr, pkt.DstPort⟩, pkt.IPProtocol, zeroAddrPort⟩
      match lookupPort ports addr4 with
      | some port => some port
      | none => findPortLoop ports pkt rest

/-- findPortLocked embeds `Stack.findPortLocked` (`netsim/stack.go`,
both variants have the same body): exact five tuple, then exact local
with wildcard remote, then the loop over the two unspecified addresses
in the order IPv4-unspecified, IPv6-unspecified. -/
def findPortLocked (ports : List (PortAddr × Nat)) (pkt : Packet) : Option Nat :=
  -- 1.
  let addr1 : PortAddr :=
    ⟨⟨pkt.DstAddr, pkt.DstPort⟩, pkt.IPProtocol, ⟨pkt.SrcAddr, pkt.SrcPort⟩⟩
  match lookupPort ports addr1 with
  | some port => some port
  | none =>
    -- 2.
    let addr2 : PortAddr := ⟨⟨pkt.DstAddr, pkt.DstPort⟩, pkt.IPProtocol, zeroAddrPort⟩
    match lookupPort ports addr2 with
    | some port => some port
    | none => findPortLoop ports pkt [IPv4Unspecified, IPv6Unspecified]

/-- cascadeKeys lists, in the order the code probes them, the six port
table keys that `findPortLocked` tries for a packet. -/
def cascadeKeys (pkt : Packet) : List PortAddr :=
  [⟨⟨pkt.DstAddr, pkt.DstPort⟩, pkt.IPProtocol, ⟨pkt.SrcAddr, pkt.SrcPort⟩⟩,
   ⟨⟨pkt.DstAddr, pkt.DstPort⟩, pkt.IPProtocol, zeroAddrPort⟩,
   ⟨⟨IPv4Unspecified, pkt.DstPort⟩, pkt.IPProtocol, ⟨pkt.SrcAddr, pkt.SrcPort⟩⟩,
   ⟨⟨IPv4Unspecified, pkt.DstPort⟩, pkt.IPProtocol, zeroAddrPort⟩,
   ⟨⟨IPv6Unspecified, pkt.DstPort⟩, pkt.IPProtocol, ⟨pkt.SrcAddr, pkt.SrcPort⟩⟩,
   ⟨⟨IPv6Unspecified, pkt.DstPort⟩, pkt.IPProtocol, zeroAddrPort⟩]

/-- firstSome returns the first `some` of a list of options, mirroring a
first-hit cascade. -/
def firstSome : List (Option Nat) → Option Nat
  | [] => none
  | some x :: _ => some x
  | none :: rest => firstSome rest

/-- StackState carries the parts of `netsim.Stack` the claims touch: the
ordered local addresses, the per-protocol next ephemeral port (the Go map
`nextport`, an association list with default 0), the port table, and the
buffered output channel as a queue with its capacity (128 in `NewStack`). -/
structure StackState where
  addrs : List Addr
  nextport : List (IPProtocol × Nat)
  ports : List (PortAddr × Nat)
  output : List Packet
  outputCap : Nat
deriving Repr

/-- mapGet models reading a Go `map[IPProtocol]uint16`: a missing key
yields the zero value. -/
def mapGet (m : List (IPProtocol × Nat)) (k : IPProtocol) : Nat :=
  match m.find? (fun e => e.1 = k) with
  | some e => e.2
  | none => 0

/-- mapSet models writing a Go map key. -/
def mapSet (m : List (IPProtocol × Nat)) (k : IPProtocol) (v : Nat) :
    List (IPProtocol × Nat) :=
  match m with
  | [] => [(k, v)]
  | e :: rest => if e.1 = k then (k, v) :: rest else e :: mapSet rest k v

/-- firstEphemeralPort is the RFC6335 constant from `NewStack`. -/
def firstEphemeralPort : Nat := 49152

/-- newStack embeds the state set up by `NewStack` (`netsim/stack.go`):
both protocol counters start at `firstEphemeralPort`, the port table is
empty, and the output channel is buffered with capacity 128
(`packet.NewNetworkDeviceIOChannels`). -/
def newStack (addrs : List Addr) : StackState :=
  { addrs := addrs
    nextport := [(IPProtocolTCP, firstEphemeralPort), (IPProtocolUDP, firstEphemeralPort)]
    ports := []
    output := []
    outputCap := 128 }

/-- isLocalAddr embeds `Stack.isLocalAddr`. -/
def isLocalAddr (addrs : List Addr) (addr : Addr) : Bool :=
  addrs.any (fun a => a = addr)

/-- runtimexAssert models `runtimex.Assert(condition, message)` from the
`rbmk-project/common/runtimex` dependency, which panics with the message
when the condition is false; the panic is an `Except.error`. -/
def runtimexAssert (condition : Bool) (message : String) : Except String Unit :=
  if condition then Except.ok () else Except.error message

/-- resetResponse is the composite literal built by `Stack.resetNonblocking`
(`netsim/stack.go` lines 189-197). The Go literal omits the `TTL` field,
which therefore stays at its zero value, not at `linuxDefaultTTL`. -/
def resetResponse (pkt : Packet) : Packet :=
  { TTL := 0
    SrcAddr := pkt.DstAddr
    DstAddr := pkt.SrcAddr
    IPProtocol := IPProtocolTCP
    SrcPort := pkt.DstPort
    DstPort := pkt.SrcPort
    Flags := TCPFlagRST
    Payload := [] }

/-- resetNonblocking embeds `Stack.resetNonblocking` (`netsim/stack.go`):
two `runtimex.Assert` calls — the second one with condition
`pkt.Flags != TCPFlagSYN` and message "expected SYN flags", exactly as in
the source — then a non-blocking send of the response into the buffered
output channel, dropped when the buffer is full. -/
def resetNonblocking (ns : StackState) (pkt : Packet) : Except String StackState := do
  _ ← runtimexAssert (pkt.IPProtocol == IPProtocolTCP) "not a TCP packet"
  _ ← runtimexAssert (pkt.Flags != TCPFlagSYN) "expected SYN flags"
  let resp := resetResponse pkt
  -- Nonblocking write to the buffered output channel.
  if ns.output.length < ns.outputCap then
    Except.ok { ns with output := ns.output ++ [resp] }
  else
    Except.ok ns

/-- DemuxResult is the observable outcome of `Stack.demux` on one packet:
either delivery to a port of the table, or a drop with the error the Go
function returns. -/
inductive DemuxResult where
  | delivered (port : Nat) : DemuxResult
  | dropped (e : Err) : DemuxResult
deriving DecidableEq, Repr

/-- demux embeds `Stack.demux` (`netsim/stack.go`, the variant with RST
synthesis): drop when TTL ≤ 0, drop when the destination is not local,
look up the port, and on a miss synthesise a RST when the packet is TCP
with exactly the SYN flag. The blocking delivery into the port input is
abstracted to the `delivered` outcome; a panic surfaces as
`Except.error`. -/
def demux (ns : StackState) (pkt : Packet) :
    Except String (DemuxResult × StackState) := do
  -- Discard packet if the TTL is zero.
  if pkt.TTL ≤ 0 then
    return (DemuxResult.dropped Err.EHOSTUNREACH, ns)
  -- Discard packet if the address is not local.
  if !(isLocalAddr ns.addrs pkt.DstAddr) then
    return (DemuxResult.dropped Err.EHOSTUNREACH, ns)
  match findPortLocked ns.ports pkt with
  | some port => return (DemuxResult.delivered port, ns)
  | none =>
    if pkt.IPProtocol == IPProtocolTCP && pkt.Flags == TCPFlagSYN then do
      let ns2 ← resetNonblocking ns pkt
      return (DemuxResult.dropped Err.ECONNREFUSED, ns2)
    else
      return (DemuxResult.dropped Err.ECONNREFUSED, ns)

/-- newEphemeralPortNumberLocked embeds the allocator
(`Stack.newEphemeralPortNumberLocked`): fail with EADDRINUSE when the
counter reached `math.MaxUint16` (65535), otherwise return the counter
and increment it. -/
def newEphemeralPortNumberLocked (ns : StackState) (protocol : IPProtocol) :
    Except Err (Nat × StackState) :=
  if mapGet ns.nextport protocol ≥ 65535 then Except.error Err.EADDRINUSE
  else
    let port := mapGet ns.nextport protocol
    Except.ok (port, { ns with nextport := mapSet ns.nextport protocol (port + 1) })

/-- newPortLocked embeds `Stack.newPortLocked`: fail with EADDRINUSE when
the `PortAddr` is already in the table, else insert a fresh port (named by
the table size) and return its address. -/
def newPortLocked (ns : StackState) (protocol : IPProtocol)
    (laddr raddr : AddrPort) : Except Err (PortAddr × StackState) :=
  let addr : PortAddr := ⟨laddr, protocol, raddr⟩
  if (lookupPort ns.ports addr).isSome then Except.error Err.EADDRINUSE
  else Except.ok (addr, { ns with ports := ns.ports ++ [(addr, ns.ports.length)] })

/-- listen embeds `Stack.listen` after address parsing (the claims are
about parsed addresses, so `laddr` is the parsed `netip.AddrPort`):
EADDRNOTAVAIL for a specified non-local address, ephemeral allocation for
port 0, and port creation with an unspecified remote. -/
def listen (ns : StackState) (protocol : IPProtocol) (laddr : AddrPort) :
    Except Err (PortAddr × StackState) :=
  if !laddr.addr.IsUnspecified && !(isLocalAddr ns.addrs laddr.addr) then
    Except.error Err.EADDRNOTAVAIL
  else if laddr.port ≤ 0 then
    match newEphemeralPortNumberLocked ns protocol with
    | Except.error e => Except.error e
    | Except.ok a => newPortLocked a.2 protocol (AddrPort.mk laddr.addr a.1) zeroAddrPort
  else
    newPortLocked ns protocol laddr zeroAddrPort

/-- dialPickLocalA embeds the source-address selection loop of
`Stack.dial` in the first variant of `netsim/stack.go` (lines 363-372):
the loop body either assigns and breaks when `raddr.Addr().Is4() && addr.Is4()`,
or assigns and breaks anyway, so it never examines more than the first
element. -/
def dialPickLocalA (addrs : List Addr) (raddr : Addr) : Addr :=
  match addrs with
  | [] => Addr.invalid
  | addr :: _ => if raddr.Is4 && addr.Is4 then addr else addr

/-- dialPickLocalB embeds the same loop in the second variant
(lines 759-768), whose condition is `raddr.Addr().Is4() == addr.Is4()`;
both branches of the body still break on the first element. -/
def dialPickLocalB (addrs : List Addr) (raddr : Addr) : Addr :=
  match addrs with
  | [] => Addr.invalid
  | addr :: _ => if raddr.Is4 == addr.Is4 then addr else addr

/-- dial embeds `Stack.dial` after address parsing (first variant, which
uses `dialPickLocalA`): reject unspecified or zero-port destinations with
EHOSTUNREACH, pick the local source address, reject an invalid pick with
EADDRNOTAVAIL, allocate the ephemeral source port, and create the
connected port. -/
def dial (ns : StackState) (protocol : IPProtocol) (raddr : AddrPort) :
    Except Err (PortAddr × StackState) :=
  if raddr.addr.IsUnspecified || raddr.port ≤ 0 then
    Except.error Err.EHOSTUNREACH
  else
    -- Pick the correct local address for the remote address.
    let ipAddrLocal := dialPickLocalA ns.addrs raddr.addr
    if !ipAddrLocal.IsValid then Except.error Err.EADDRNOTAVAIL
    else
      match newEphemeralPortNumberLocked ns protocol with
      | Except.error e => Except.error e
      | Except.ok a => newPortLocked a.2 protocol (AddrPort.mk ipAddrLocal a.1) raddr

end Stack

namespace TCPConn

open Netsim

/-- connectNetsim embeds `TCPConn.Connect` from `netsim/tcpconn.go` when
run for the first time (the `initonce` guard taken): the result of the
SYN write (`Port.WritePacket`) and of the subsequent `Port.ReadPacket`
are inputs; an error of either is returned as is; a first packet whose
flags differ from SYN|ACK aborts with ECONNABORTED; otherwise the
handshake succeeds. This variant has no special case for RST. -/
def connectNetsim (writeRes : Except Err Unit) (readRes : Except Err Packet) :
    Except Err Unit :=
  match writeRes with
  | Except.error e => Except.error e
  | Except.ok _ =>
    match readRes with
    | Except.error e => Except.error e
    | Except.ok pkt =>
      if pkt.Flags != (TCPFlagSYN ||| TCPFlagACK) then Except.error Err.ECONNABORTED
      else Except.ok ()

/-- connectNetstack embeds `TCPConn.Connect` from
`netsim/netstack/tcpconn.go` when run for the first time: like
`connectNetsim`, but a first packet whose flags equal exactly RST is
refused with ECONNREFUSED before the SYN|ACK comparison. -/
def connectNetstack (writeRes : Except Err Unit) (readRes : Except Err Packet) :
    Except Err Unit :=
  match writeRes with
  | Except.error e => Except.error e
  | Except.ok _ =>
    match readRes with
    | Except.error e => Except.error e
    | Except.ok pkt =>
      if pkt.Flags == TCPFlagRST then Except.error Err.ECONNREFUSED
      else if pkt.Flags != (TCPFlagSYN ||| TCPFlagACK) then Except.error Err.ECONNABORTED
      else Except.ok ()

/-- bufTake models `bytes.Buffer.Read` into a caller buffer of size `n`:
it yields `min n (buffer length)` bytes. -/
def bufTake (n : Nat) (buffer : List Nat) : Nat := min n buffer.length

/-- readNetsim embeds the `TCPConn.Read` loop of `netsim/tcpconn.go`:
`n` is the caller buffer size, `buffer` the internal byte buffer, and
`stream` the successive results of `Port.ReadPacket`. On a packet-read
error this variant returns `(0, nil)` — the error value is discarded —
modelled as `Except.ok 0`. FIN yields io.EOF, RST yields ECONNRESET,
and data packets refill the buffer and continue the loop. The result is
`none` when the loop would block forever on an exhausted stream. -/
def readNetsim (n : Nat) (buffer : List Nat)
    (stream : List (Except Err Packet)) : Option (Except Err Nat) :=
  let count := bufTake n buffer
  if count > 0 then some (Except.ok count)
  else
    match stream with
    | [] => none
    | res :: rest =>
      match res with
      | Except.error _ => some (Except.ok 0)
      | Except.ok pkt =>
        if pkt.Flags &&& TCPFlagFIN != 0 then some (Except.error Err.ErrEOF)
        else if pkt.Flags &&& TCPFlagRST != 0 then some (Except.error Err.ECONNRESET)
        else readNetsim n (buffer ++ pkt.Payload) rest
termination_by stream.length

/-- readNetstack embeds the `TCPConn.Read` loop of
`netsim/netstack/tcpconn.go`, identical to `readNetsim` except that a
packet-read error is propagated to the caller (`return 0, err`). -/
def readNetstack (n : Nat) (buffer : List Nat)
    (stream : List (Except Err Packet)) : Option (Except Err Nat) :=
  let count := bufTake n buffer
  if count > 0 then some (Except.ok count)
  else
    match stream with
    | [] => none
    | res :: rest =>
      match res with
      | Except.error e => some (Except.error e)
      | Except.ok pkt =>
        if pkt.Flags &&& TCPFlagFIN != 0 then some (Except.error Err.ErrEOF)
        else if pkt.Flags &&& TCPFlagRST != 0 then some (Except.error Err.ECONNRESET)
        else readNetstack n (buffer ++ pkt.Payload) rest
termination_by stream.length

end TCPConn

namespace Deadline

/-- DState is the state of a `netsim.deadline` between operations: the
absolute fire time of the pending `time.AfterFunc` timer when one is
armed, whether the current cancel channel has been closed, and a
generation counter that increments whenever `make(chan struct{})`
replaces the channel (so two `Wait` results are the same channel exactly
when the generations agree). Times are naturals and the zero
`time.Time` is the time value 0. -/
structure DState where
  timer : Option Nat
  closed : Bool
  gen : Nat
deriving DecidableEq, Repr

/-- newDeadline models `newDeadline()`: no timer, open channel. -/
def newDeadline : DState := ⟨none, false, 0⟩

/-- fired tells whether the cancel channel is closed when observed at
time `now`: either it was closed already, or an armed timer's callback
has run because its fire time was reached. -/
def fired (now : Nat) (d : DState) : Bool :=
  d.closed ||
    match d.timer with
    | some u => decide (u ≤ now)
    | none => false

/-- set embeds `deadline.Set(t)` (`netsim/deadline.go`) executed at time
`now`. First the pending timer is stopped; if its callback already ran
(`!d.timer.Stop()`), the code waits for it, so the channel is closed —
`fired now d` captures the channel state at that point. Then: a zero `t`
leaves no timer and an open channel (fresh when the old one was closed);
a future `t` arms a timer firing at `t` (fresh channel first when the old
one was closed); a past or present nonzero `t` closes the channel
immediately. -/
def set (now t : Nat) (d : DState) : DState :=
  let closed := fired now d
  -- Time is zero, then there is no deadline.
  if t = 0 then
    { timer := none, closed := false, gen := if closed then d.gen + 1 else d.gen }
  -- Time in the future, setup a timer to cancel in the future.
  else if now < t then
    { timer := some t, closed := false, gen := if closed then d.gen + 1 else d.gen }
  -- Time in the past, so close immediately.
  else
    { timer := none, closed := true, gen := d.gen }

end Deadline

open Netsim

/-- Claim C1. The claim says a SYN-only TCP packet to a local address with
no matching port makes demux emit exactly one RST via a non-blocking send.
The code instead panics: `resetNonblocking` asserts
`pkt.Flags != TCPFlagSYN` (message "expected SYN flags"), and `demux` only
calls it when `pkt.Flags == TCPFlagSYN`, so the assertion condition is
false and `runtimex.Assert` panics before any RST is built. Evaluated
here on a fresh stack with local address 10.0.0.1 receiving a SYN from
10.0.0.2:5000 to 10.0.0.1:80. -/
theorem claim_C1_rst_on_closed_port :
    Stack.demux ⟨[Addr.v4 1], [(6, 49152), (17, 49152)], [], [], 128⟩
      ⟨64, Addr.v4 2, Addr.v4 1, 6, 5000, 80, 2, []⟩
      = Except.error "expected SYN flags" := by
  rfl

/-- Claim C3. In the netstack variant `TCPConn.Read` propagates a failing
`Port.ReadPacket` (deadline expiry gives os.ErrDeadlineExceeded, close
gives net.ErrClosed), and FIN and RST packets give io.EOF and ECONNRESET;
but in the netsim variant the same failing read is swallowed and `Read`
returns `(0, nil)`, contradicting the claim. All five behaviours are
evaluated at an empty internal buffer with a 10-byte caller buffer. -/
theorem claim_C3_read_error_propagation :
    TCPConn.readNetsim 10 [] [Except.error Err.ErrDeadlineExceeded]
        = some (Except.ok 0)
    ∧ TCPConn.readNetstack 10 [] [Except.error Err.ErrDeadlineExceeded]
        = some (Except.error Err.ErrDeadlineExceeded)
    ∧ TCPConn.readNetstack 10 [] [Except.error Err.ErrClosed]
        = some (Except.error Err.ErrClosed)
    ∧ TCPConn.readNetstack 10 []
        [Except.ok ⟨64, Addr.v4 2, Addr.v4 1, 6, 80, 49152, TCPFlagFIN, []⟩]
        = some (Except.error Err.ErrEOF)
    ∧ TCPConn.readNetstack 10 []
        [Except.ok ⟨64, Addr.v4 2, Addr.v4 1, 6, 80, 49152, TCPFlagRST, []⟩]
        = some (Except.error Err.ECONNRESET) := by
  refine ⟨?_, ?_, ?_, ?_, ?_⟩ <;>
    simp [TCPConn.readNetsim, TCPConn.readNetstack, TCPConn.bufTake,
      TCPFlagFIN, TCPFlagRST]

/-- handleTrace on a chain where no filter drops: every filter is invoked
in order, all injected packets are routed, and the original is routed
last. -/
theorem Router.handleTrace_of_no_drop (pkt : Packet) :
    ∀ filters : List Router.Filter,
      (∀ g ∈ filters, (g pkt).1 ≠ Router.Target.DROP) →
      Router.handleTrace filters pkt
        = ((filters.map (fun g => (g pkt).2)).flatten ++ [pkt], true) := by
  intro filters
  induction filters with
  | nil => intro _; rfl
  | cons pf rest ih =>
    intro h
    have hpf : (pf pkt).1 ≠ Router.Target.DROP := h pf (List.mem_cons_self pf rest)
    have hrest := ih (fun g hg => h g (List.mem_cons_of_mem pf hg))
    unfold Router.handleTrace
    cases htgt : (pf pkt).1 with
    | DROP => exact absurd htgt hpf
    | CONTINUE => simp [htgt, hrest]

/-- handleTrace on a chain whose first DROP is pf: the filters before pf
are invoked in order and their injected packets routed, pf's injected
packets are routed, the original packet is not routed, and the filters
after pf are not invoked (their injections do not appear). -/
theorem Router.handleTrace_of_drop (pkt : Packet) (pf : Router.Filter)
    (post : List Router.Filter) :
    ∀ pre : List Router.Filter,
      (∀ g ∈ pre, (g pkt).1 ≠ Router.Target.DROP) →
      (pf pkt).1 = Router.Target.DROP →
      Router.handleTrace (pre ++ pf :: post) pkt
        = ((pre.map (fun g => (g pkt).2)).flatten ++ (pf pkt).2, false) := by
  intro pre
  induction pre with
  | nil =>
    intro _ hdrop
    unfold Router.handleTrace
    simp [hdrop]
  | cons g0 rest ih =>
    intro h hdrop
    have hg0 : (g0 pkt).1 ≠ Router.Target.DROP := h g0 (List.mem_cons_self g0 rest)
    have hrest := ih (fun g hg => h g (List.mem_cons_of_mem g0 hg)) hdrop
    unfold Router.handleTrace
    cases htgt : (g0 pkt).1 with
    | DROP => exact absurd htgt hg0
    | CONTINUE => simp [htgt, hrest]

/-- Claim C2 counterexample. In the netsim variant of `TCPConn.Connect`,
a first packet with exactly the RST flag makes Connect fail with
ECONNABORTED, not with ECONNREFUSED as the claim states (the variant has
no RST case at all). -/
theorem claim_C2_counterexample :
    TCPConn.connectNetsim (Except.ok ())
        (Except.ok ⟨64, Addr.v4 1, Addr.v4 2, 6, 80, 49152, TCPFlagRST, []⟩)
      = Except.error Err.ECONNABORTED
    ∧ Err.ECONNABORTED ≠ Err.ECONNREFUSED := by
  exact ⟨rfl, by decide⟩

/-- Claim C2 as amended: in the netstack variant of Connect, a first
packet with exactly RST fails with ECONNREFUSED and any other flag
combination that is not SYN|ACK fails with ECONNABORTED; in the netsim
variant, every flag combination other than SYN|ACK — including RST —
fails with ECONNABORTED; SYN|ACK succeeds in both. -/
theorem claim_C2_amended (pkt : Packet) :
    (pkt.Flags = TCPFlagRST →
      TCPConn.connectNetstack (Except.ok ()) (Except.ok pkt)
          = Except.error Err.ECONNREFUSED
      ∧ TCPConn.connectNetsim (Except.ok ()) (Except.ok pkt)
          = Except.error Err.ECONNABORTED)
    ∧ (pkt.Flags ≠ TCPFlagRST → pkt.Flags ≠ (TCPFlagSYN ||| TCPFlagACK) →
      TCPConn.connectNetstack (Except.ok ()) (Except.ok pkt)
          = Except.error Err.ECONNABORTED
      ∧ TCPConn.connectNetsim (Except.ok ()) (Except.ok pkt)
          = Except.error Err.ECONNABORTED)
    ∧ (pkt.Flags = (TCPFlagSYN ||| TCPFlagACK) →
      TCPConn.connectNetstack (Except.ok ()) (Except.ok pkt) = Except.ok ()
      ∧ TCPConn.connectNetsim (Except.ok ()) (Except.ok pkt) = Except.ok ()) := by
  refine ⟨?_, ?_, ?_⟩
  · intro h
    constructor <;>
      simp [TCPConn.connectNetstack, TCPConn.connectNetsim, h, TCPFlagRST,
        TCPFlagSYN, TCPFlagACK, Except.bind]
  · intro h1 h2
    constructor <;>
      simp [TCPConn.connectNetstack, TCPConn.connectNetsim, h1, h2, Except.bind]
  · intro h
    constructor <;>
      simp [TCPConn.connectNetstack, TCPConn.connectNetsim, h, TCPFlagRST,
        TCPFlagSYN, TCPFlagACK, Except.bind]

/-- Claim C2 witness: concrete instances of the amended claim — an RST
first packet is refused with ECONNREFUSED by the netstack Connect, a
FIN first packet is aborted with ECONNABORTED, and a SYN|ACK first
packet completes the handshake. -/
theorem claim_C2_witness :
    TCPConn.connectNetstack (Except.ok ())
        (Except.ok ⟨64, Addr.v4 1, Addr.v4 2, 6, 80, 49152, TCPFlagRST, []⟩)
      = Except.error Err.ECONNREFUSED
    ∧ TCPConn.connectNetstack (Except.ok ())
        (Except.ok ⟨64, Addr.v4 1, Addr.v4 2, 6, 80, 49152, TCPFlagFIN, []⟩)
      = Except.error Err.ECONNABORTED
    ∧ TCPConn.connectNetstack (Except.ok ())
        (Except.ok ⟨64, Addr.v4 1, Addr.v4 2, 6, 80, 49152,
          TCPFlagSYN ||| TCPFlagACK, []⟩)
      = Except.ok () := by
  refine ⟨?_, ?_, ?_⟩
  · exact ((claim_C2_amended
      ⟨64, Addr.v4 1, Addr.v4 2, 6, 80, 49152, TCPFlagRST, []⟩).1 rfl).1
  · exact ((claim_C2_amended
      ⟨64, Addr.v4 1, Addr.v4 2, 6, 80, 49152, TCPFlagFIN, []⟩).2.1
      (by decide) (by decide)).1
  · exact ((claim_C2_amended
      ⟨64, Addr.v4 1, Addr.v4 2, 6, 80, 49152,
        TCPFlagSYN ||| TCPFlagACK, []⟩).2.2 rfl).1

/-- Claim C4 counterexample. With local addresses [v6, v4] in order and
an IPv4 destination, dial selects the IPv6 first address even though a
local IPv4 address exists: the selection loop of both variants assigns
and breaks on the first element whatever the family comparison says. The
last conjunct runs the full dial and observes the selected source. -/
theorem claim_C4_counterexample :
    Stack.dialPickLocalA [Addr.v6 1, Addr.v4 2] (Addr.v4 9) = Addr.v6 1
    ∧ Stack.dialPickLocalB [Addr.v6 1, Addr.v4 2] (Addr.v4 9) = Addr.v6 1
    ∧ (Addr.v6 1).Is4 = false
    ∧ (Addr.v4 2).Is4 = true
    ∧ Stack.isLocalAddr [Addr.v6 1, Addr.v4 2] (Addr.v4 2) = true
    ∧ (Stack.dial (Stack.newStack [Addr.v6 1, Addr.v4 2]) 6
        ⟨Addr.v4 9, 80⟩).toOption.map (fun a => a.1.LocalAddr.addr)
      = some (Addr.v6 1) := by
  refine ⟨rfl, rfl, rfl, rfl, rfl, rfl⟩

/-- Claim C4 as amended: the source-selection loop of dial always picks
the first local address, in both variants (`Is4 && Is4` and
`Is4 == Is4`), whatever the destination's family; with an empty local
address list the pick is the invalid address (and dial then fails with
EADDRNOTAVAIL). -/
theorem claim_C4_amended (a : Addr) (rest : List Addr) (raddr : Addr) :
    Stack.dialPickLocalA (a :: rest) raddr = a
    ∧ Stack.dialPickLocalB (a :: rest) raddr = a
    ∧ Stack.dialPickLocalA [] raddr = Addr.invalid
    ∧ Stack.dialPickLocalB [] raddr = Addr.invalid := by
  refine ⟨?_, ?_, rfl, rfl⟩ <;>
    simp [Stack.dialPickLocalA, Stack.dialPickLocalB]

/-- Claim C5 counterexample. Port table: port 1 is an IPv6-wildcard
socket with exact remote [::7]:5 (the claim's step-3 shape, matching the
incoming IPv6 packet's family), port 2 is an IPv4-wildcard socket with
wildcard remote (a step-4-only shape). For an IPv6 packet from
[::7]:5 to [::9]:80 the code selects port 2, because the loop probes
IPv4-unspecified keys (steps 3 and 4) before IPv6-unspecified ones, so a
step-3-shape port is not always preferred over a step-4-only port. -/
theorem claim_C5_counterexample :
    Stack.findPortLocked
        [(⟨⟨IPv6Unspecified, 80⟩, 6, ⟨Addr.v6 7, 5⟩⟩, 1),
         (⟨⟨IPv4Unspecified, 80⟩, 6, zeroAddrPort⟩, 2)]
        ⟨64, Addr.v6 7, Addr.v6 9, 6, 5, 80, 2, []⟩
      = some 2
    ∧ Stack.lookupPort
        [(⟨⟨IPv6Unspecified, 80⟩, 6, ⟨Addr.v6 7, 5⟩⟩, 1),
         (⟨⟨IPv4Unspecified, 80⟩, 6, zeroAddrPort⟩, 2)]
        ⟨⟨IPv6Unspecified, 80⟩, 6, ⟨Addr.v6 7, 5⟩⟩
      = some 1
    ∧ (2 : Nat) ≠ 1 := by
  refine ⟨rfl, rfl, by decide⟩

/-- Claim C5 as amended: for every port table and packet the selected
port is the first hit of the six-key cascade in the order the code probes
it — exact five tuple; exact local with wildcard remote; then for the
IPv4-unspecified local first and the IPv6-unspecified local second, the
wildcard-local five tuple and then the wildcard-local three tuple. An
IPv4-wildcard three-tuple port is therefore preferred over an
IPv6-wildcard five-tuple port. -/
theorem claim_C5_amended (tbl : List (Stack.PortAddr × Nat)) (pkt : Packet) :
    Stack.findPortLocked tbl pkt
      = Stack.firstSome ((Stack.cascadeKeys pkt).map (Stack.lookupPort tbl)) := by
  simp only [Stack.findPortLocked, Stack.findPortLoop, Stack.cascadeKeys, List.map]
  cases Stack.lookupPort tbl
      ⟨⟨pkt.DstAddr, pkt.DstPort⟩, pkt.IPProtocol, ⟨pkt.SrcAddr, pkt.SrcPort⟩⟩ <;>
    cases Stack.lookupPort tbl
      ⟨⟨pkt.DstAddr, pkt.DstPort⟩, pkt.IPProtocol, zeroAddrPort⟩ <;>
    cases Stack.lookupPort tbl
      ⟨⟨IPv4Unspecified, pkt.DstPort⟩, pkt.IPProtocol, ⟨pkt.SrcAddr, pkt.SrcPort⟩⟩ <;>
    cases Stack.lookupPort tbl
      ⟨⟨IPv4Unspecified, pkt.DstPort⟩, pkt.IPProtocol, zeroAddrPort⟩ <;>
    cases Stack.lookupPort tbl
      ⟨⟨IPv6Unspecified, pkt.DstPort⟩, pkt.IPProtocol, ⟨pkt.SrcAddr, pkt.SrcPort⟩⟩ <;>
    cases Stack.lookupPort tbl
      ⟨⟨IPv6Unspecified, pkt.DstPort⟩, pkt.IPProtocol, zeroAddrPort⟩ <;>
    simp [Stack.firstSome]

/-- Claim C8. Filters are invoked in insertion order; when no filter
drops, every injected packet and then the original are passed to route;
when some filter drops, the packets passed to route are exactly the
injections of the filters up to and including the first dropping one —
the original is not routed, the filters after the dropping one are not
invoked, and injected packets are always routed (they go straight to
route, never back into the chain, by the shape of handleTrace). -/
theorem claim_C8_filter_chain (filters pre post : List Router.Filter)
    (pf : Router.Filter) (pkt : Packet) :
    ((∀ g ∈ filters, (g pkt).1 ≠ Router.Target.DROP) →
      Router.handleTrace filters pkt
        = ((filters.map (fun g => (g pkt).2)).flatten ++ [pkt], true))
    ∧ (filters = pre ++ pf :: post →
      (∀ g ∈ pre, (g pkt).1 ≠ Router.Target.DROP) →
      (pf pkt).1 = Router.Target.DROP →
      Router.handleTrace filters pkt
        = ((pre.map (fun g => (g pkt).2)).flatten ++ (pf pkt).2, false)) := by
  constructor
  · exact Router.handleTrace_of_no_drop pkt filters
  · intro heq hpre hdrop
    subst heq
    exact Router.handleTrace_of_drop pkt pf post pre hpre hdrop

/-- Claim C8 witness: a concrete three-filter chain where the first
filter accepts and injects one packet, the second drops and injects one
packet, and the third would accept; the routed packets are exactly the
two injections, the original is not routed, and the third filter's
injection never appears. -/
theorem claim_C8_witness :
    Router.handleTrace
      [fun _ => (Router.Target.CONTINUE, [⟨64, Addr.v4 8, Addr.v4 9, 17, 1, 2, 0, []⟩]),
       fun _ => (Router.Target.DROP, [⟨64, Addr.v4 8, Addr.v4 9, 17, 3, 4, 0, []⟩]),
       fun _ => (Router.Target.CONTINUE, [⟨64, Addr.v4 8, Addr.v4 9, 17, 5, 6, 0, []⟩])]
      ⟨64, Addr.v4 2, Addr.v4 1, 6, 5000, 80, 2, []⟩
      = ([⟨64, Addr.v4 8, Addr.v4 9, 17, 1, 2, 0, []⟩,
          ⟨64, Addr.v4 8, Addr.v4 9, 17, 3, 4, 0, []⟩], false) := by
  have h :=
    (claim_C8_filter_chain
      [fun _ => (Router.Target.CONTINUE, [⟨64, Addr.v4 8, Addr.v4 9, 17, 1, 2, 0, []⟩]),
       fun _ => (Router.Target.DROP, [⟨64, Addr.v4 8, Addr.v4 9, 17, 3, 4, 0, []⟩]),
       fun _ => (Router.Target.CONTINUE, [⟨64, Addr.v4 8, Addr.v4 9, 17, 5, 6, 0, []⟩])]
      [fun _ => (Router.Target.CONTINUE, [⟨64, Addr.v4 8, Addr.v4 9, 17, 1, 2, 0, []⟩])]
      [fun _ => (Router.Target.CONTINUE, [⟨64, Addr.v4 8, Addr.v4 9, 17, 5, 6, 0, []⟩])]
      (fun _ => (Router.Target.DROP, [⟨64, Addr.v4 8, Addr.v4 9, 17, 3, 4, 0, []⟩]))
      ⟨64, Addr.v4 2, Addr.v4 1, 6, 5000, 80, 2, []⟩).2
      rfl
      (by intro g hg; rcases List.mem_singleton.mp hg with rfl; simp)
      rfl
  simpa using h

/-- Claim C9. For every routing table, buffer state and packet: a packet
with TTL 0 (the uint8 reading of TTL ≤ 0) is dropped with TTL-exceeded;
every successfully forwarded packet leaves with TTL decremented by
exactly one, hence strictly smaller; a missing routing entry drops with
no-route; and a full next-hop buffer makes the non-blocking send drop
with buffer-full, otherwise the packet is forwarded to the looked-up
device. -/
theorem claim_C9_route (srt : List (Addr × Nat)) (full : Nat → Bool)
    (pkt : Packet) :
    (pkt.TTL = 0 → Router.route srt full pkt = Except.error Err.errTTLExceeded)
    ∧ (∀ dev pkt2, Router.route srt full pkt = Except.ok (dev, pkt2) →
        pkt2.TTL = pkt.TTL - 1 ∧ pkt2.TTL < pkt.TTL)
    ∧ (0 < pkt.TTL → Router.lookupSrt srt pkt.DstAddr = none →
        Router.route srt full pkt = Except.error Err.errNoRouteToHost)
    ∧ (∀ dev, 0 < pkt.TTL → Router.lookupSrt srt pkt.DstAddr = some dev →
        full dev = true → Router.route srt full pkt = Except.error Err.errBufferFull)
    ∧ (∀ dev, 0 < pkt.TTL → Router.lookupSrt srt pkt.DstAddr = some dev →
        full dev = false →
        Router.route srt full pkt = Except.ok (dev, { pkt with TTL := pkt.TTL - 1 })) := by
  refine ⟨?_, ?_, ?_, ?_, ?_⟩
  · intro h0
    simp [Router.route, h0]
  · intro dev pkt2 hok
    by_cases h0 : pkt.TTL = 0
    · simp [Router.route, h0] at hok
    · have hne : ¬ pkt.TTL ≤ 0 := by omega
      cases hsrt : Router.lookupSrt srt pkt.DstAddr with
      | none => simp [Router.route, hne, hsrt] at hok
      | some nh =>
        by_cases hfull : full nh
        · simp [Router.route, hne, hsrt, hfull] at hok
        · simp [Router.route, hne, hsrt, hfull] at hok
          rcases hok with ⟨hdev, hpkt⟩
          constructor
          · rw [← hpkt]
          · rw [← hpkt]
            simp
            omega
  · intro hpos hnone
    simp [Router.route, show ¬ pkt.TTL ≤ 0 by omega, hnone]
  · intro dev hpos hsome hfull
    simp [Router.route, show ¬ pkt.TTL ≤ 0 by omega, hsome, hfull]
  · intro dev hpos hsome hfull
    simp [Router.route, show ¬ pkt.TTL ≤ 0 by omega, hsome, hfull]

/-- Claim C9 witness: a concrete router with one route for 10.0.0.1 and
room in the buffer forwards a TTL-64 packet with TTL 63; and concrete
TTL-0, no-route and buffer-full packets are dropped with the three
errors. -/
theorem claim_C9_witness :
    Router.route [(Addr.v4 1, 0)] (fun _ => false)
        ⟨64, Addr.v4 2, Addr.v4 1, 6, 5000, 80, 2, []⟩
      = Except.ok (0, ⟨63, Addr.v4 2, Addr.v4 1, 6, 5000, 80, 2, []⟩)
    ∧ Router.route [(Addr.v4 1, 0)] (fun _ => false)
        ⟨0, Addr.v4 2, Addr.v4 1, 6, 5000, 80, 2, []⟩
      = Except.error Err.errTTLExceeded
    ∧ Router.route [(Addr.v4 1, 0)] (fun _ => false)
        ⟨64, Addr.v4 2, Addr.v4 3, 6, 5000, 80, 2, []⟩
      = Except.error Err.errNoRouteToHost
    ∧ Router.route [(Addr.v4 1, 0)] (fun _ => true)
        ⟨64, Addr.v4 2, Addr.v4 1, 6, 5000, 80, 2, []⟩
      = Except.error Err.errBufferFull := by
  refine ⟨?_, ?_, ?_, ?_⟩
  · exact (claim_C9_route [(Addr.v4 1, 0)] (fun _ => false)
      ⟨64, Addr.v4 2, Addr.v4 1, 6, 5000, 80, 2, []⟩).2.2.2.2 0
      (by decide) (by rfl) (by rfl)
  · exact (claim_C9_route [(Addr.v4 1, 0)] (fun _ => false)
      ⟨0, Addr.v4 2, Addr.v4 1, 6, 5000, 80, 2, []⟩).1 rfl
  · exact (claim_C9_route [(Addr.v4 1, 0)] (fun _ => false)
      ⟨64, Addr.v4 2, Addr.v4 3, 6, 5000, 80, 2, []⟩).2.2.1 (by decide) (by rfl)
  · exact (claim_C9_route [(Addr.v4 1, 0)] (fun _ => true)
      ⟨64, Addr.v4 2, Addr.v4 1, 6, 5000, 80, 2, []⟩).2.2.2.1 0
      (by decide) (by rfl) (by rfl)

/-- mapGet of a cons splits on whether the head carries the key. -/
theorem Stack.mapGet_cons (e : IPProtocol × Nat) (tail : List (IPProtocol × Nat))
    (k : IPProtocol) :
    Stack.mapGet (e :: tail) k = if e.1 = k then e.2 else Stack.mapGet tail k := by
  by_cases h : e.1 = k <;> simp [Stack.mapGet, List.find?, h]

/-- mapSet stores the value that a subsequent mapGet of the same key
reads back. -/
theorem Stack.mapGet_mapSet_self (m : List (IPProtocol × Nat))
    (k : IPProtocol) (v : Nat) :
    Stack.mapGet (Stack.mapSet m k v) k = v := by
  induction m with
  | nil => simp [Stack.mapSet, Stack.mapGet, List.find?]
  | cons e rest ih =>
    by_cases h : e.1 = k
    · simp [Stack.mapSet, h, Stack.mapGet_cons]
    · simp only [Stack.mapSet]
      rw [if_neg h, Stack.mapGet_cons, if_neg h, ih]

/-- Claim C6. The two per-protocol counters of a fresh stack start at
49152; a successful allocation returns the current counter and bumps it
to one more (so the counter only ever grows); once the counter is at
least 65535 the allocator fails with EADDRINUSE — returning no new state,
so no later allocation for that protocol can succeed — and every dial
with a specified destination and every listen with port 0 then fail with
EADDRINUSE. -/
theorem claim_C6_ephemeral_ports :
    (∀ addrs : List Addr,
      Stack.mapGet (Stack.newStack addrs).nextport IPProtocolTCP
          = Stack.firstEphemeralPort
      ∧ Stack.mapGet (Stack.newStack addrs).nextport IPProtocolUDP
          = Stack.firstEphemeralPort)
    ∧ (∀ (ns : Stack.StackState) (protocol : IPProtocol),
        Stack.mapGet ns.nextport protocol < 65535 →
        Stack.newEphemeralPortNumberLocked ns protocol
          = Except.ok (Stack.mapGet ns.nextport protocol,
              { ns with nextport := (Stack.mapSet ns.nextport protocol
                  (Stack.mapGet ns.nextport protocol + 1)) }))
    ∧ (∀ (ns ns2 : Stack.StackState) (protocol : IPProtocol) (v : Nat),
        Stack.newEphemeralPortNumberLocked ns protocol = Except.ok (v, ns2) →
        v = Stack.mapGet ns.nextport protocol
        ∧ Stack.mapGet ns2.nextport protocol = v + 1)
    ∧ (∀ (ns : Stack.StackState) (protocol : IPProtocol),
        65535 ≤ Stack.mapGet ns.nextport protocol →
        Stack.newEphemeralPortNumberLocked ns protocol
          = Except.error Err.EADDRINUSE)
    ∧ (∀ (ns : Stack.StackState) (protocol : IPProtocol) (raddr : AddrPort),
        65535 ≤ Stack.mapGet ns.nextport protocol →
        raddr.addr.IsUnspecified = false → 0 < raddr.port →
        (Stack.dialPickLocalA ns.addrs raddr.addr).IsValid = true →
        Stack.dial ns protocol raddr = Except.error Err.EADDRINUSE)
    ∧ (∀ (ns : Stack.StackState) (protocol : IPProtocol) (laddr : AddrPort),
        65535 ≤ Stack.mapGet ns.nextport protocol →
        (laddr.addr.IsUnspecified = true
          ∨ Stack.isLocalAddr ns.addrs laddr.addr = true) →
        laddr.port = 0 →
        Stack.listen ns protocol laddr = Except.error Err.EADDRINUSE) := by
  refine ⟨?_, ?_, ?_, ?_, ?_, ?_⟩
  · intro addrs
    constructor <;> rfl
  · intro ns protocol h
    simp [Stack.newEphemeralPortNumberLocked, show
      ¬ 65535 ≤ Stack.mapGet ns.nextport protocol by omega]
  · intro ns ns2 protocol v hok
    by_cases h : 65535 ≤ Stack.mapGet ns.nextport protocol
    · simp [Stack.newEphemeralPortNumberLocked, h] at hok
    · simp [Stack.newEphemeralPortNumberLocked, h] at hok
      rcases hok with ⟨hv, hns⟩
      refine ⟨hv.symm, ?_⟩
      rw [← hns]
      simp [Stack.mapGet_mapSet_self, hv]
  · intro ns protocol h
    simp [Stack.newEphemeralPortNumberLocked, h]
  · intro ns protocol raddr hge hunspec hport hvalid
    simp [Stack.dial, hvalid, Stack.newEphemeralPortNumberLocked, hge]
    exact ⟨hunspec, by omega⟩
  · intro ns protocol laddr hge hlocal hport
    have hcond : (!laddr.addr.IsUnspecified && !(Stack.isLocalAddr ns.addrs laddr.addr))
        = false := by
      rcases hlocal with h | h <;> simp [h]
    simp [Stack.listen, hcond, hport, Stack.newEphemeralPortNumberLocked, hge]

/-- Claim C6 witness: on a fresh stack with one address the TCP counter
reads 49152 and the first allocation returns 49152 bumping the counter to
49153; on a stack whose TCP counter is 65535, allocation, dial and listen
with port 0 all fail with EADDRINUSE. -/
theorem claim_C6_witness :
    Stack.mapGet (Stack.newStack [Addr.v4 1]).nextport IPProtocolTCP = 49152
    ∧ Stack.newEphemeralPortNumberLocked (Stack.newStack [Addr.v4 1]) IPProtocolTCP
        = Except.ok (49152, ⟨[Addr.v4 1], [(6, 49153), (17, 49152)], [], [], 128⟩)
    ∧ Stack.newEphemeralPortNumberLocked
        ⟨[Addr.v4 1], [(6, 65535), (17, 49152)], [], [], 128⟩ IPProtocolTCP
        = Except.error Err.EADDRINUSE
    ∧ Stack.dial ⟨[Addr.v4 1], [(6, 65535), (17, 49152)], [], [], 128⟩
        IPProtocolTCP ⟨Addr.v4 9, 80⟩ = Except.error Err.EADDRINUSE
    ∧ Stack.listen ⟨[Addr.v4 1], [(6, 65535), (17, 49152)], [], [], 128⟩
        IPProtocolTCP ⟨IPv6Unspecified, 0⟩ = Except.error Err.EADDRINUSE := by
  refine ⟨(claim_C6_ephemeral_ports.1 [Addr.v4 1]).1, ?_, ?_, ?_, ?_⟩
  · exact (claim_C6_ephemeral_ports.2.1 (Stack.newStack [Addr.v4 1]) IPProtocolTCP
      (by decide)).trans (by rfl)
  · exact claim_C6_ephemeral_ports.2.2.2.1
      ⟨[Addr.v4 1], [(6, 65535), (17, 49152)], [], [], 128⟩ IPProtocolTCP (by decide)
  · exact claim_C6_ephemeral_ports.2.2.2.2.1
      ⟨[Addr.v4 1], [(6, 65535), (17, 49152)], [], [], 128⟩ IPProtocolTCP
      ⟨Addr.v4 9, 80⟩ (by decide) (by decide) (by decide) (by decide)
  · exact claim_C6_ephemeral_ports.2.2.2.2.2
      ⟨[Addr.v4 1], [(6, 65535), (17, 49152)], [], [], 128⟩ IPProtocolTCP
      ⟨IPv6Unspecified, 0⟩ (by decide) (Or.inl (by decide)) (by decide)

/-- Claim C7. Deadline Set executed at `now`: a zero time leaves no
pending timer and an open signal channel (fresh exactly when the old one
had fired), and after it no observation at any time sees the channel
closed until a later Set; a future time arms a timer firing at `t`, with
an open channel that is fresh exactly when the old one had fired, and an
observation at time t2 sees the channel closed exactly when t ≤ t2; a
past or present nonzero time closes the channel immediately, keeping the
same channel. -/
theorem claim_C7_deadline_set (now t : Nat) (d : Deadline.DState) :
    ((Deadline.set now 0 d).timer = none
      ∧ (Deadline.set now 0 d).closed = false
      ∧ (Deadline.set now 0 d).gen
          = (if Deadline.fired now d then d.gen + 1 else d.gen)
      ∧ ∀ t2, Deadline.fired t2 (Deadline.set now 0 d) = false)
    ∧ (0 < t → now < t →
      (Deadline.set now t d).timer = some t
      ∧ (Deadline.set now t d).closed = false
      ∧ (Deadline.set now t d).gen
          = (if Deadline.fired now d then d.gen + 1 else d.gen)
      ∧ ∀ t2, Deadline.fired t2 (Deadline.set now t d) = decide (t ≤ t2))
    ∧ (0 < t → t ≤ now →
      (Deadline.set now t d).closed = true
      ∧ (Deadline.set now t d).timer = none
      ∧ (Deadline.set now t d).gen = d.gen) := by
  refine ⟨⟨?_, ?_, ?_, ?_⟩, ?_, ?_⟩
  · simp [Deadline.set]
  · simp [Deadline.set]
  · simp [Deadline.set]
  · intro t2
    simp [Deadline.set, Deadline.fired]
  · intro hpos hnow
    have hne : ¬ t = 0 := by omega
    refine ⟨?_, ?_, ?_, ?_⟩ <;>
      simp [Deadline.set, Deadline.fired, hne, hnow]
  · intro hpos hle
    have hne : ¬ t = 0 := by omega
    have hnlt : ¬ now < t := by omega
    refine ⟨?_, ?_, ?_⟩ <;> simp [Deadline.set, hne, hnlt]

/-- Claim C7 witness: with a deadline whose timer fired at time 2,
Set at time 3: a zero time leaves an open fresh channel (generation 1)
with no timer and no later observation fires; time 10 arms a timer with a
fresh open channel that an observation at 10 sees closed and at 9 sees
open; time 2 closes immediately. -/
theorem claim_C7_witness :
    (Deadline.set 3 0 ⟨some 2, false, 0⟩).timer = none
    ∧ (Deadline.set 3 0 ⟨some 2, false, 0⟩).closed = false
    ∧ (Deadline.set 3 0 ⟨some 2, false, 0⟩).gen = 1
    ∧ Deadline.fired 100 (Deadline.set 3 0 ⟨some 2, false, 0⟩) = false
    ∧ (Deadline.set 3 10 ⟨some 2, false, 0⟩).timer = some 10
    ∧ Deadline.fired 9 (Deadline.set 3 10 ⟨some 2, false, 0⟩) = false
    ∧ Deadline.fired 10 (Deadline.set 3 10 ⟨some 2, false, 0⟩) = true
    ∧ (Deadline.set 3 2 ⟨some 2, false, 0⟩).closed = true := by
  refine ⟨(claim_C7_deadline_set 3 0 ⟨some 2, false, 0⟩).1.1,
    (claim_C7_deadline_set 3 0 ⟨some 2, false, 0⟩).1.2.1,
    ((claim_C7_deadline_set 3 0 ⟨some 2, false, 0⟩).1.2.2.1).trans (by decide),
    (claim_C7_deadline_set 3 0 ⟨some 2, false, 0⟩).1.2.2.2 100,
    ((claim_C7_deadline_set 3 10 ⟨some 2, false, 0⟩).2.1 (by decide) (by decide)).1,
    (((claim_C7_deadline_set 3 10 ⟨some 2, false, 0⟩).2.1 (by decide)
      (by decide)).2.2.2 9).trans (by decide),
    (((claim_C7_deadline_set 3 10 ⟨some 2, false, 0⟩).2.1 (by decide)
      (by decide)).2.2.2 10).trans (by decide),
    ((claim_C7_deadline_set 3 2 ⟨some 2, false, 0⟩).2.2 (by decide) (by decide)).1⟩

/-- Claim C10. The packet literal built by resetNonblocking omits the TTL
field, so the synthesized RST carries TTL 0, not the 64 default used by
WritePacket; it has the RST flag and the swapped addresses and ports; and
the router's route drops every such packet as TTL-exceeded, for every
routing table and buffer state, so it can never traverse a router. -/
theorem claim_C10_rst_ttl_zero (pkt : Packet) (srt : List (Addr × Nat))
    (full : Nat → Bool) :
    (Stack.resetResponse pkt).TTL = 0
    ∧ (Stack.resetResponse pkt).TTL ≠ linuxDefaultTTL
    ∧ (Stack.resetResponse pkt).Flags = TCPFlagRST
    ∧ (Stack.resetResponse pkt).SrcAddr = pkt.DstAddr
    ∧ (Stack.resetResponse pkt).DstAddr = pkt.SrcAddr
    ∧ (Stack.resetResponse pkt).SrcPort = pkt.DstPort
    ∧ (Stack.resetResponse pkt).DstPort = pkt.SrcPort
    ∧ Router.route srt full (Stack.resetResponse pkt)
        = Except.error Err.errTTLExceeded := by
  refine ⟨rfl, by simp [Stack.resetResponse, linuxDefaultTTL], rfl, rfl, rfl, rfl, rfl, ?_⟩
  simp [Router.route, Stack.resetResponse]
